import Mathlib

/-!
Shallow embedding of the auto-exposure core of `qhy5-auto.py`.

The Python source manipulates camera settings (`current_gain`,
`current_offset`, `current_binning` as Python ints, `current_exposure` as a
Python float) inside the iterative loop `IndiClient.CCDauto`, and arms each
capture through `IndiClient.CCDcapture`.  Floats are modelled as exact
rationals (`ℚ`); every constant of the source (`1.4`, `0.5`, `0.000001`) is
representable exactly as a rational, and no claim below depends on binary
floating-point rounding — all branch decisions in the counterexamples and
witnesses happen far from any comparison boundary.

The measured mean of each frame is the loop's only input from the outside
world.  It is modelled as a function `means : ℕ → AutoState → ℚ` giving the
mean of the frame captured at iteration `k` with settings `s`; this covers
both "for all sequences of measured means" (ignore the state argument) and
"a deterministic simulated device" (ignore the iteration index).
-/

namespace QhyAuto

/-- `MAXTRY = 15` — max number of auto-exposure attempts. -/
def MAXTRY : ℕ := 15

/-- `MEANADU = 128` — expected mean ADU. -/
def MEANADU : ℚ := 128

/-- `DEVADU = 20` — allowed deviation of the mean. -/
def DEVADU : ℚ := 20

/-- `EXPOSURE_THRESHOLD = 1.0` seconds. -/
def EXPOSURE_THRESHOLD : ℚ := 1

/-- `MINGAIN = 1`. -/
def MINGAIN : ℤ := 1

/-- `MAXGAIN = 29`. -/
def MAXGAIN : ℤ := 29

/-- `STEPGAIN = 4`. -/
def STEPGAIN : ℤ := 4

/-- `MINOFFSET = 1`. -/
def MINOFFSET : ℤ := 1

/-- `MAXOFFSET = 512`. -/
def MAXOFFSET : ℤ := 512

/-- `MINEXP = 0.000001` seconds. -/
def MINEXP : ℚ := 1 / 1000000

/-- `MAXEXP = 8` seconds. -/
def MAXEXP : ℚ := 8

/-- `low = MEANADU - DEVADU` of `CCDauto`. -/
def low : ℚ := MEANADU - DEVADU

/-- `high = MEANADU + DEVADU` of `CCDauto`. -/
def high : ℚ := MEANADU + DEVADU

/-- The mutable state of one `CCDauto` run: the camera settings
(`self.current_*` in the source) together with the four direction-memory
booleans (`last_exp_inc`, `last_exp_dec`, `last_gain_inc`, `last_gain_dec`,
local variables of `CCDauto`). -/
structure AutoState where
  current_gain : ℤ
  current_offset : ℤ
  current_binning : ℤ
  current_exposure : ℚ
  last_exp_inc : Bool
  last_exp_dec : Bool
  last_gain_inc : Bool
  last_gain_dec : Bool
  deriving Repr, DecidableEq

/-- Result of the body of one loop iteration: either continue with the
updated state, or `break` out of the loop (`stop`) with the updated state. -/
inductive StepResult where
  | cont (s : AutoState) : StepResult
  | stop (s : AutoState) : StepResult
  deriving Repr, DecidableEq

/-- The state carried by a `StepResult`. -/
def StepResult.state : StepResult → AutoState
  | .cont s => s
  | .stop s => s

/-- One iteration body of the `while count > 0` loop of `CCDauto`
(src/qhy5-auto.py lines 288-333), given the measured `mean` of the frame
just captured.  Mirrors the source branch for branch:

* `mean >= high` (too bright): decrease gain by `STEPGAIN` (clamped at
  `MINGAIN`) when `current_exposure <= EXPOSURE_THRESHOLD and current_gain >
  MINGAIN and not last_gain_inc`; otherwise decrease exposure — `break` if
  already at `MINEXP`, else divide by `1.4` if `last_exp_inc` else `2`,
  clamped below at `MINEXP`.
* `mean <= low` (too dark): symmetric with gain increase / exposure
  multiply, clamped above at `MAXEXP`.
* otherwise: `break` with the state untouched. -/
def step (s : AutoState) (mean : ℚ) : StepResult :=
  if mean ≥ high then
    -- exposure too bright
    if s.current_exposure ≤ EXPOSURE_THRESHOLD ∧ s.current_gain > MINGAIN ∧
        ¬ s.last_gain_inc then
      -- decrease gain
      let g := s.current_gain - STEPGAIN
      let g := if g < MINGAIN then MINGAIN else g
      .cont { s with current_gain := g, last_gain_dec := true }
    else
      -- decrease exposure time
      if s.current_exposure ≤ MINEXP then
        .stop { s with current_exposure := MINEXP }
      else
        let new_exp := s.current_exposure / (if s.last_exp_inc then 7/5 else 2)
        let new_exp := if new_exp < MINEXP then MINEXP else new_exp
        .cont { s with current_exposure := new_exp,
                       last_exp_dec := true, last_gain_dec := false }
  else if mean ≤ low then
    -- exposure too dark
    if s.current_exposure ≥ EXPOSURE_THRESHOLD ∧ s.current_gain < MAXGAIN ∧
        ¬ s.last_gain_dec then
      -- increase gain
      let g := s.current_gain + STEPGAIN
      let g := if g > MAXGAIN then MAXGAIN else g
      .cont { s with current_gain := g, last_gain_inc := true }
    else
      -- increase exposure time
      if s.current_exposure ≥ MAXEXP then
        .stop { s with current_exposure := MAXEXP }
      else
        let new_exp := s.current_exposure * (if s.last_exp_dec then 7/5 else 2)
        let new_exp := if new_exp > MAXEXP then MAXEXP else new_exp
        .cont { s with current_exposure := new_exp,
                       last_gain_inc := false, last_exp_inc := true }
  else
    -- exposure ok
    .stop s

/-- What a whole `CCDauto` run yields, observed at its end:

* `final` — the settings / flags state when the loop has exited (the values
  `CCDwriteImg` annotates the output image with);
* `captures` — how many capture iterations were performed;
* `lastSettings` — the state at the moment of the *last* capture, i.e. the
  settings that produced the last frame (its exposure is the source's
  `last_exp` local variable);
* `lastFrame` — the iteration index of the last captured frame;
* `trace` — the state after each iteration, in order. -/
structure RunResult where
  final : AutoState
  captures : ℕ
  lastSettings : AutoState
  lastFrame : ℕ
  trace : List AutoState
  deriving Repr, DecidableEq

/-- The `while count > 0` loop of `CCDauto`, by structural recursion on the
remaining attempt budget (`count` in the source).  `k` is the index of the
frame about to be captured, `lastS` the settings of the previous capture
(used only when the budget runs out). -/
def loopAux (means : ℕ → AutoState → ℚ) :
    ℕ → ℕ → AutoState → AutoState → RunResult
  | 0, k, s, lastS => ⟨s, k, lastS, k - 1, []⟩
  | fuel + 1, k, s, _lastS =>
      match step s (means k s) with
      | .stop s' => ⟨s', k + 1, s, k, [s']⟩
      | .cont s' =>
          let r := loopAux means fuel (k + 1) s' s
          { r with trace := s' :: r.trace }

/-- `IndiClient.CCDauto` (src/qhy5-auto.py lines 267-336): run the loop with
the full budget `MAXTRY`, starting with all four direction-memory flags
reset. -/
def CCDauto (means : ℕ → AutoState → ℚ) (s : AutoState) : RunResult :=
  loopAux means MAXTRY 0
    { s with last_exp_inc := false, last_exp_dec := false,
             last_gain_inc := false, last_gain_dec := false }
    s

/-- The invariant of claim C1 on settings: gain and exposure within their
camera bounds. -/
def InvGE (s : AutoState) : Prop :=
  MINGAIN ≤ s.current_gain ∧ s.current_gain ≤ MAXGAIN ∧
  MINEXP ≤ s.current_exposure ∧ s.current_exposure ≤ MAXEXP

instance : DecidablePred InvGE := fun s => by unfold InvGE; infer_instance

/-- The externally visible operations of `IndiClient.CCDcapture`: a property
write sent with `sendNewProperty`, or clearing the `blobEvent` signal. -/
inductive CaptureEvent where
  | writeGain : CaptureEvent
  | writeOffset : CaptureEvent
  | writeBinning : CaptureEvent
  | clearSignal : CaptureEvent
  | writeExposure : CaptureEvent
  deriving Repr, DecidableEq

/-- `IndiClient.CCDcapture` (src/qhy5-auto.py lines 204-218) as the sequence
of operations it performs, in source order: send `CCD_GAIN`, send
`CCD_OFFSET`, send `CCD_BINNING`, `blobEvent.clear()`, send `CCD_EXPOSURE`
(the write that starts the capture). -/
def CCDcapture_events : List CaptureEvent :=
  [.writeGain, .writeOffset, .writeBinning, .clearSignal, .writeExposure]

/-- State of the image-ready signal (`blobEvent`, set by
`IndiClient.updateProperty` on a BLOB update and waited on by `CCDgetImg`)
after running a list of capture events: `clear()` resets it to `false`; no
event of `CCDcapture` sets it. -/
def signalAfter (init : Bool) (evs : List CaptureEvent) : Bool :=
  evs.foldl (fun b e => if e = CaptureEvent.clearSignal then false else b) init

/-- Concrete settings: gain 1, offset 1, binning 2, exposure 2 s, flags
clear. -/
def stateA : AutoState := ⟨1, 1, 2, 2, false, false, false, false⟩

/-- Concrete settings: gain 1, offset 1, binning 2, exposure 0.5 s, flags
clear (the source's default initial settings). -/
def stateB : AutoState := ⟨1, 1, 2, 1/2, false, false, false, false⟩

/-- Concrete settings: gain 1, offset 1, binning 2, exposure 0.1 s, flags
clear. -/
def stateC : AutoState := ⟨1, 1, 2, 1/10, false, false, false, false⟩

/-- Concrete settings: gain 29, offset 1, binning 2, exposure 8 s, flags
clear. -/
def stateD : AutoState := ⟨29, 1, 2, 8, false, false, false, false⟩

/-- A measured-mean source that always reads saturated (255 ADU). -/
def alwaysBright : ℕ → AutoState → ℚ := fun _ _ => 255

/-- A measured-mean source that always reads inside the target band. -/
def alwaysBand : ℕ → AutoState → ℚ := fun _ _ => 128

/-- A deterministic simulated device: its mean depends only on the current
settings (bright at long exposures, in-band below 0.2 s). -/
def simDevice : AutoState → ℚ :=
  fun s => if s.current_exposure ≥ 1/2 then 200
           else if s.current_exposure < 1/5 then 128 else 200

/-! ## Helper lemmas -/

/-- A mean strictly inside the target band stops the loop with the state
untouched (the final `else` branch of the classification). -/
lemma step_of_band (s : AutoState) (m : ℚ) (h₁ : low < m) (h₂ : m < high) :
    step s m = .stop s := by
  unfold step
  rw [if_neg (not_le.mpr h₂), if_neg (not_le.mpr h₁)]

/-- No branch of the loop body touches `current_offset` or
`current_binning`. -/
lemma step_offset_binning (s : AutoState) (m : ℚ) :
    (step s m).state.current_offset = s.current_offset ∧
    (step s m).state.current_binning = s.current_binning := by
  unfold step
  split_ifs <;> exact ⟨rfl, rfl⟩

/-- Every branch of the loop body keeps gain and exposure inside the camera
bounds. -/
lemma InvGE_step (s : AutoState) (m : ℚ) (h : InvGE s) :
    InvGE (step s m).state := by
  obtain ⟨h1, h2, h3, h4⟩ := h
  have hpos : 0 < s.current_exposure :=
    lt_of_lt_of_le (by norm_num [MINEXP]) h3
  unfold step
  split_ifs with c1 c2 c3 c4 c5 c6 c7 c8
  all_goals
    simp only [StepResult.state, InvGE, MINGAIN, MAXGAIN, STEPGAIN, MINEXP,
      MAXEXP, EXPOSURE_THRESHOLD, low, high, MEANADU, DEVADU] at *
  all_goals refine ⟨?_, ?_, ?_, ?_⟩
  all_goals try split_ifs
  all_goals first
    | omega
    | linarith

/-- A property preserved by every loop body step holds after every
iteration of the loop and at its final state. -/
lemma loopAux_preserves (P : AutoState → Prop)
    (hP : ∀ s m, P s → P (step s m).state) (means : ℕ → AutoState → ℚ) :
    ∀ (fuel k : ℕ) (s lastS : AutoState), P s →
      P (loopAux means fuel k s lastS).final ∧
      ∀ t ∈ (loopAux means fuel k s lastS).trace, P t := by
  intro fuel
  induction fuel with
  | zero =>
      intro k s lastS hs
      exact ⟨hs, by intro t ht; simp [loopAux] at ht⟩
  | succ n ih =>
      intro k s lastS hs
      have hstep := hP s (means k s) hs
      unfold loopAux
      cases hc : step s (means k s) with
      | stop s' =>
          rw [hc] at hstep
          exact ⟨hstep, by intro t ht; simp at ht; rw [ht]; exact hstep⟩
      | cont s' =>
          rw [hc] at hstep
          obtain ⟨hf, htr⟩ := ih (k + 1) s' s hstep
          refine ⟨hf, ?_⟩
          intro t ht
          simp at ht
          rcases ht with ht | ht
          · rw [ht]; exact hstep
          · exact htr t ht

/-- Structure of a full-loop run: at least one capture, at most `k + fuel`
captures, the last frame is the final capture, and when the mean of the
last capture lies strictly inside the band the final state is exactly the
state that produced that capture. -/
lemma loopAux_spec (means : ℕ → AutoState → ℚ) :
    ∀ (fuel k : ℕ) (s lastS : AutoState), 0 < fuel →
      k < (loopAux means fuel k s lastS).captures ∧
      (loopAux means fuel k s lastS).captures ≤ k + fuel ∧
      (loopAux means fuel k s lastS).lastFrame + 1 =
        (loopAux means fuel k s lastS).captures ∧
      (low < means (loopAux means fuel k s lastS).lastFrame
          (loopAux means fuel k s lastS).lastSettings →
       means (loopAux means fuel k s lastS).lastFrame
          (loopAux means fuel k s lastS).lastSettings < high →
       (loopAux means fuel k s lastS).final =
          (loopAux means fuel k s lastS).lastSettings) := by
  intro fuel
  induction fuel with
  | zero => intro k s lastS h; omega
  | succ n ih =>
      intro k s lastS _
      unfold loopAux
      cases hc : step s (means k s) with
      | stop s' =>
          dsimp only
          refine ⟨by omega, by omega, by omega, ?_⟩
          intro hl hh
          have := step_of_band s (means k s) hl hh
          rw [this] at hc
          cases hc
          rfl
      | cont s' =>
          dsimp only
          rcases Nat.eq_zero_or_pos n with hn | hn
          · subst hn
            unfold loopAux
            dsimp only
            refine ⟨by omega, by omega, by omega, ?_⟩
            intro hl hh
            have := step_of_band s (means k s) hl hh
            rw [this] at hc
            cases hc
          · obtain ⟨ha, hb, hcn, hd⟩ := ih (k + 1) s' s hn
            exact ⟨by omega, by omega, hcn, hd⟩

/-! ## Claims -/

/-- C1: for every run of the auto-exposure loop started with gain in
`[MINGAIN, MAXGAIN]` and exposure in `[MINEXP, MAXEXP]`, after every single
iteration — and hence after every iteration of every run, and on return —
gain stays within `[MINGAIN, MAXGAIN]` and the exposure stays within
`[MINEXP, MAXEXP]`, for all sequences of measured means. -/
theorem C1_settings_invariant :
    (∀ (s : AutoState) (m : ℚ), InvGE s → InvGE (step s m).state) ∧
    ∀ (means : ℕ → AutoState → ℚ) (s : AutoState), InvGE s →
      InvGE (CCDauto means s).final ∧
      ∀ t ∈ (CCDauto means s).trace, InvGE t := by
  refine ⟨InvGE_step, ?_⟩
  intro means s hs
  unfold CCDauto
  exact loopAux_preserves InvGE InvGE_step means MAXTRY 0 _ s hs

/-- Witness for C1: a concrete in-range start (gain 29, exposure 8 s) under a
saturated mean sequence keeps the final settings in range. -/
theorem C1_settings_invariant_witness :
    InvGE stateD ∧ InvGE (CCDauto alwaysBright stateD).final :=
  ⟨by norm_num [InvGE, stateD, MINGAIN, MAXGAIN, MINEXP, MAXEXP],
   (C1_settings_invariant.2 alwaysBright stateD
     (by norm_num [InvGE, stateD, MINGAIN, MAXGAIN, MINEXP, MAXEXP])).1⟩

/-- C2: if the measured mean of iteration `k` lies strictly between `low`
and `high`, the loop stops at iteration `k` and returns that iteration's
frame (`lastFrame = k`) with the current settings — gain, exposure, offset,
binning and all four direction-memory flags unchanged by that final
iteration. -/
theorem C2_converged_stop :
    ∀ (means : ℕ → AutoState → ℚ) (fuel k : ℕ) (s lastS : AutoState),
      0 < fuel → low < means k s → means k s < high →
      loopAux means fuel k s lastS = ⟨s, k + 1, s, k, [s]⟩ := by
  intro means fuel k s lastS hf hl hh
  cases fuel with
  | zero => omega
  | succ n =>
      unfold loopAux
      rw [step_of_band s (means k s) hl hh]

/-- Witness for C2: a mean of 128 at the first iteration stops the loop at
once with the settings untouched. -/
theorem C2_converged_stop_witness :
    (0 : ℕ) < MAXTRY ∧ low < alwaysBand 0 stateB ∧ alwaysBand 0 stateB < high ∧
    loopAux alwaysBand MAXTRY 0 stateB stateB = ⟨stateB, 1, stateB, 0, [stateB]⟩ :=
  ⟨by norm_num [MAXTRY],
   by norm_num [alwaysBand, low, MEANADU, DEVADU],
   by norm_num [alwaysBand, high, MEANADU, DEVADU],
   C2_converged_stop alwaysBand MAXTRY 0 stateB stateB
     (by norm_num [MAXTRY])
     (by norm_num [alwaysBand, low, MEANADU, DEVADU])
     (by norm_num [alwaysBand, high, MEANADU, DEVADU])⟩

/-- C3 (counterexample): starting from exposure 0.1 s with all flags clear
under a dark mean, iteration 1 increases the exposure (×2) and iteration 2
increases it again — yet the second increase also uses multiplier 2.0, not
1.4, refuting the claim that the second of two consecutive increases is
damped. -/
theorem C3_counterexample :
    (step stateC 0).state.current_exposure = 2 * stateC.current_exposure ∧
    (step (step stateC 0).state 0).state.current_exposure
      = 2 * (step stateC 0).state.current_exposure ∧
    (step (step stateC 0).state 0).state.current_exposure
      ≠ (7/5) * (step stateC 0).state.current_exposure := by
  norm_num [step, stateC, StepResult.state, high, low, MEANADU, DEVADU,
    EXPOSURE_THRESHOLD, MINGAIN, MAXGAIN, STEPGAIN, MINEXP, MAXEXP]

/-- C3 (amended): the multiplier of an exposure increase is 1.4 exactly when
the `last_exp_dec` flag is set — i.e. when some earlier iteration decreased
exposure (a direction reversal) — and 2.0 otherwise; in particular an
increase with no prior memory uses 2.0, and so does the second of two
consecutive increases with no earlier decrease. -/
theorem C3_increase_multiplier :
    ∀ (s : AutoState) (m : ℚ) (s' : AutoState), m ≤ low →
      step s m = .cont s' →
      s'.current_exposure ≠ s.current_exposure →
      s'.current_exposure =
        min MAXEXP (s.current_exposure * (if s.last_exp_dec then 7/5 else 2)) ∧
      (s.last_exp_dec = false →
        s'.current_exposure = min MAXEXP (2 * s.current_exposure)) := by
  intro s m s' hm hstep hne
  have hmh : ¬ (m ≥ high) := by
    simp only [low, high, MEANADU, DEVADU] at *
    intro hc
    linarith
  unfold step at hstep
  rw [if_neg hmh, if_pos hm] at hstep
  by_cases hg : s.current_exposure ≥ EXPOSURE_THRESHOLD ∧
      s.current_gain < MAXGAIN ∧ ¬ s.last_gain_dec
  · -- gain-increase branch: exposure unchanged, contradicting hne
    rw [if_pos hg] at hstep
    cases hstep
    simp at hne
  · rw [if_neg hg] at hstep
    by_cases hmax : s.current_exposure ≥ MAXEXP
    · -- stop-at-MAXEXP branch: not a cont
      rw [if_pos hmax] at hstep
      cases hstep
    · -- exposure-increase branch
      rw [if_neg hmax] at hstep
      dsimp only at hstep
      cases hstep
      dsimp only
      constructor
      · rw [min_def]
        split_ifs <;> linarith
      · intro hdec
        rw [hdec]
        simp only [Bool.false_eq_true, if_false]
        rw [min_def, mul_comm]
        split_ifs <;> linarith

/-- Witness for C3 (amended): with `last_exp_dec` set (exposure 0.5 s, dark
mean), the increase is damped: the new exposure is 0.5 × 1.4 = 0.7 s. -/
theorem C3_increase_multiplier_witness :
    (0 : ℚ) ≤ low ∧
    step (⟨1, 1, 2, 1/2, false, true, false, true⟩ : AutoState) 0
      = .cont (⟨1, 1, 2, 7/10, true, true, false, true⟩ : AutoState) ∧
    (7 : ℚ)/10 ≠ 1/2 ∧
    (7 : ℚ)/10 = min MAXEXP ((1/2) * (7/5)) :=
  have hs : step (⟨1, 1, 2, 1/2, false, true, false, true⟩ : AutoState) 0
      = .cont (⟨1, 1, 2, 7/10, true, true, false, true⟩ : AutoState) := by
    norm_num [step, high, low, MEANADU, DEVADU, EXPOSURE_THRESHOLD,
      MINGAIN, MAXGAIN, STEPGAIN, MINEXP, MAXEXP]
  ⟨by norm_num [low, MEANADU, DEVADU], hs,
   by norm_num,
   by
    have h := C3_increase_multiplier
      (⟨1, 1, 2, 1/2, false, true, false, true⟩ : AutoState) 0
      (⟨1, 1, 2, 7/10, true, true, false, true⟩ : AutoState)
      (by norm_num [low, MEANADU, DEVADU]) hs (by norm_num)
    simpa using h.1⟩

/-- C4 (counterexample): start at gain 1, exposure 2 s; a dark mean raises
gain (setting `last_gain_inc`), a bright mean then halves the exposure to
1 s — an iteration that does not touch gain.  On the next bright mean the
hypotheses of the claim hold (exposure ≤ 1 s, gain 5 > `MINGAIN`, previous
action was an exposure decrease, not a gain increase), yet the code
decreases exposure and leaves gain unchanged, because the stale
`last_gain_inc` flag from two iterations ago is still set. -/
theorem C4_counterexample :
    (step (step stateA 0).state 255).state.current_gain
      = (step stateA 0).state.current_gain ∧
    (step (step stateA 0).state 255).state.current_exposure
      < (step stateA 0).state.current_exposure ∧
    (step (step stateA 0).state 255).state.current_exposure
      ≤ EXPOSURE_THRESHOLD ∧
    MINGAIN < (step (step stateA 0).state 255).state.current_gain ∧
    high ≤ 255 ∧
    (step (step (step stateA 0).state 255).state 255).state.current_gain
      = (step (step stateA 0).state 255).state.current_gain ∧
    (step (step (step stateA 0).state 255).state 255).state.current_exposure
      < (step (step stateA 0).state 255).state.current_exposure := by
  norm_num [step, stateA, StepResult.state, high, low, MEANADU, DEVADU,
    EXPOSURE_THRESHOLD, MINGAIN, MAXGAIN, STEPGAIN, MINEXP, MAXEXP]

/-- C4 (amended): on a TOO_BRIGHT mean with exposure ≤ 1 s, gain >
`MINGAIN` and the `last_gain_inc` flag clear — the flag records the most
recent gain increase not yet overwritten by an exposure increase, not the
immediately previous action — the step is a gain decrease by `STEPGAIN`
clamped at `MINGAIN`, with exposure (and everything except the
`last_gain_dec` flag) untouched. -/
theorem C4_gain_preference :
    ∀ (s : AutoState) (m : ℚ), high ≤ m →
      s.current_exposure ≤ EXPOSURE_THRESHOLD →
      MINGAIN < s.current_gain →
      s.last_gain_inc = false →
      step s m = .cont { s with
        current_gain := max MINGAIN (s.current_gain - STEPGAIN),
        last_gain_dec := true } := by
  intro s m hm he hg hf
  unfold step
  rw [if_pos hm, if_pos ⟨he, hg, by simp [hf]⟩]
  dsimp only
  have hmax : (if s.current_gain - STEPGAIN < MINGAIN then MINGAIN
               else s.current_gain - STEPGAIN)
      = max MINGAIN (s.current_gain - STEPGAIN) := by
    rw [max_def]
    split_ifs <;> omega
  rw [hmax]

/-- Witness for C4 (amended): at gain 9, exposure 0.5 s, flags clear, a
saturated mean decreases gain to 5 and leaves exposure at 0.5 s. -/
theorem C4_gain_preference_witness :
    high ≤ (255 : ℚ) ∧
    (⟨9, 1, 2, 1/2, false, false, false, false⟩ : AutoState).current_exposure
      ≤ EXPOSURE_THRESHOLD ∧
    MINGAIN < (⟨9, 1, 2, 1/2, false, false, false, false⟩ : AutoState).current_gain ∧
    step (⟨9, 1, 2, 1/2, false, false, false, false⟩ : AutoState) 255
      = .cont { (⟨9, 1, 2, 1/2, false, false, false, false⟩ : AutoState) with
          current_gain := max MINGAIN
            ((⟨9, 1, 2, 1/2, false, false, false, false⟩ : AutoState).current_gain
              - STEPGAIN),
          last_gain_dec := true } :=
  ⟨by norm_num [high, MEANADU, DEVADU],
   by norm_num [EXPOSURE_THRESHOLD],
   by norm_num [MINGAIN],
   C4_gain_preference (⟨9, 1, 2, 1/2, false, false, false, false⟩ : AutoState) 255
     (by norm_num [high, MEANADU, DEVADU])
     (by norm_num [EXPOSURE_THRESHOLD])
     (by norm_num [MINGAIN])
     rfl⟩

/-- C5 (counterexample): start at gain 1, exposure 0.5 s; a dark mean
doubles the exposure to 1 s (setting `last_exp_inc`), a second dark mean
raises gain — an iteration that does not touch exposure.  A bright mean
then divides the exposure by 1.4 (to 5/7 s), not by 2 as the claim
predicts, even though the *previous* iteration did not increase exposure:
the sticky `last_exp_inc` flag from two iterations ago selects the damped
divisor. -/
theorem C5_counterexample :
    (step (step stateB 0).state 0).state.current_exposure
      = (step stateB 0).state.current_exposure ∧
    (step (step stateB 0).state 0).state.current_gain
      ≠ (step stateB 0).state.current_gain ∧
    high ≤ 255 ∧
    (step (step (step stateB 0).state 0).state 255).state.current_exposure
      = (step (step stateB 0).state 0).state.current_exposure / (7/5) ∧
    (step (step (step stateB 0).state 0).state 255).state.current_exposure
      ≠ (step (step stateB 0).state 0).state.current_exposure / 2 := by
  norm_num [step, stateB, StepResult.state, high, low, MEANADU, DEVADU,
    EXPOSURE_THRESHOLD, MINGAIN, MAXGAIN, STEPGAIN, MINEXP, MAXEXP]

/-- C5 (amended): on a TOO_BRIGHT mean in which the gain-decrease branch is
not taken, if the exposure is already at (or below) `MINEXP` the loop stops
on that iteration with no further exposure reduction; otherwise the
exposure is divided by 1.4 exactly when the `last_exp_inc` flag is set —
i.e. when some earlier iteration increased exposure, the flag being never
cleared — and by 2 otherwise, the result clamped below at `MINEXP`. -/
theorem C5_exposure_decrease :
    ∀ (s : AutoState) (m : ℚ), high ≤ m →
      ¬ (s.current_exposure ≤ EXPOSURE_THRESHOLD ∧ MINGAIN < s.current_gain ∧
          ¬ s.last_gain_inc) →
      (s.current_exposure ≤ MINEXP →
        step s m = .stop { s with current_exposure := MINEXP }) ∧
      (MINEXP < s.current_exposure →
        step s m = .cont { s with
          current_exposure :=
            max MINEXP (s.current_exposure /
              (if s.last_exp_inc then 7/5 else 2)),
          last_exp_dec := true, last_gain_dec := false }) := by
  intro s m hm hguard
  unfold step
  rw [if_pos hm, if_neg hguard]
  constructor
  · intro hmin
    rw [if_pos hmin]
  · intro hmin
    rw [if_neg (not_le.mpr hmin)]
    dsimp only
    have hclamp : (if s.current_exposure / (if s.last_exp_inc then 7/5 else 2)
            < MINEXP then MINEXP
          else s.current_exposure / (if s.last_exp_inc then 7/5 else 2))
        = max MINEXP (s.current_exposure / (if s.last_exp_inc then 7/5 else 2)) := by
      rw [max_def]
      split_ifs <;> linarith
    rw [hclamp]

/-- Witness for C5 (amended): at gain 1 (so the gain branch cannot fire),
the stop case at `MINEXP` and the halving case at 0.5 s are both exercised
by a saturated mean. -/
theorem C5_exposure_decrease_witness :
    high ≤ (255 : ℚ) ∧
    (⟨1, 1, 2, MINEXP, false, false, false, false⟩ : AutoState).current_exposure
      ≤ MINEXP ∧
    step (⟨1, 1, 2, MINEXP, false, false, false, false⟩ : AutoState) 255
      = .stop { (⟨1, 1, 2, MINEXP, false, false, false, false⟩ : AutoState) with
          current_exposure := MINEXP } ∧
    MINEXP < (⟨1, 1, 2, 1/2, false, false, false, false⟩ : AutoState).current_exposure ∧
    step (⟨1, 1, 2, 1/2, false, false, false, false⟩ : AutoState) 255
      = .cont { (⟨1, 1, 2, 1/2, false, false, false, false⟩ : AutoState) with
          current_exposure :=
            max MINEXP ((⟨1, 1, 2, 1/2, false, false, false, false⟩ :
              AutoState).current_exposure /
              (if (⟨1, 1, 2, 1/2, false, false, false, false⟩ :
                AutoState).last_exp_inc then 7/5 else 2)),
          last_exp_dec := true, last_gain_dec := false } :=
  ⟨by norm_num [high, MEANADU, DEVADU],
   le_refl _,
   (C5_exposure_decrease (⟨1, 1, 2, MINEXP, false, false, false, false⟩ : AutoState)
      255 (by norm_num [high, MEANADU, DEVADU])
      (by norm_num [MINGAIN])).1 (le_refl _),
   by norm_num [MINEXP],
   (C5_exposure_decrease (⟨1, 1, 2, 1/2, false, false, false, false⟩ : AutoState)
      255 (by norm_num [high, MEANADU, DEVADU])
      (by norm_num [MINGAIN])).2 (by norm_num [MINEXP])⟩

/-- C6 (counterexample): from gain 1, exposure 2 s, a bright mean halves
the exposure (setting `last_exp_dec`); the following dark mean raises gain
— an iteration that adjusts gain and leaves exposure alone — yet
`last_exp_dec` stays set afterwards: a gain-adjusting iteration does *not*
clear the exposure flags, refuting the claim that the opposite axis's
flags are reset. -/
theorem C6_counterexample :
    (step stateA 255).state.last_exp_dec = true ∧
    (step (step stateA 255).state 0).state.current_gain
      ≠ (step stateA 255).state.current_gain ∧
    (step (step stateA 255).state 0).state.current_exposure
      = (step stateA 255).state.current_exposure ∧
    (step (step stateA 255).state 0).state.last_exp_dec = true := by
  norm_num [step, stateA, StepResult.state, high, low, MEANADU, DEVADU,
    EXPOSURE_THRESHOLD, MINGAIN, MAXGAIN, STEPGAIN, MINEXP, MAXEXP]

/-- C6 (amended): after an adjusting iteration the flag of the action just
taken is set, but opposite-axis flags are *not* both cleared: a
gain-adjusting iteration leaves both exposure flags (and the other gain
flag) unchanged, an exposure decrease clears only `last_gain_dec` and an
exposure increase clears only `last_gain_inc`, each leaving the remaining
flags at their previous values — so each flag records the most recent
action in that direction not yet overwritten, not the immediately
preceding action. -/
theorem C6_flag_updates :
    ∀ (s : AutoState) (m : ℚ) (s' : AutoState), step s m = .cont s' →
      (s'.current_gain ≠ s.current_gain →
        s'.last_exp_inc = s.last_exp_inc ∧ s'.last_exp_dec = s.last_exp_dec ∧
        (high ≤ m → s'.last_gain_dec = true ∧ s'.last_gain_inc = s.last_gain_inc) ∧
        (m ≤ low → s'.last_gain_inc = true ∧ s'.last_gain_dec = s.last_gain_dec)) ∧
      (s'.current_exposure ≠ s.current_exposure →
        (high ≤ m → s'.last_exp_dec = true ∧ s'.last_gain_dec = false ∧
          s'.last_exp_inc = s.last_exp_inc ∧ s'.last_gain_inc = s.last_gain_inc) ∧
        (m ≤ low → s'.last_exp_inc = true ∧ s'.last_gain_inc = false ∧
          s'.last_exp_dec = s.last_exp_dec ∧ s'.last_gain_dec = s.last_gain_dec)) := by
  intro s m s' hstep
  unfold step at hstep
  by_cases hb : m ≥ high
  · rw [if_pos hb] at hstep
    by_cases hg : s.current_exposure ≤ EXPOSURE_THRESHOLD ∧
        s.current_gain > MINGAIN ∧ ¬ s.last_gain_inc
    · -- gain-decrease branch
      rw [if_pos hg] at hstep
      dsimp only at hstep
      cases hstep
      refine ⟨fun _ => ⟨rfl, rfl, fun _ => ⟨rfl, rfl⟩, fun hlo => absurd hb ?_⟩,
              fun hne => absurd rfl hne⟩
      simp only [low, high, MEANADU, DEVADU] at *
      intro hc
      linarith
    · rw [if_neg hg] at hstep
      by_cases hmin : s.current_exposure ≤ MINEXP
      · rw [if_pos hmin] at hstep
        cases hstep
      · -- exposure-decrease branch
        rw [if_neg hmin] at hstep
        dsimp only at hstep
        cases hstep
        refine ⟨fun hne => absurd rfl hne,
                fun _ => ⟨fun _ => ⟨rfl, rfl, rfl, rfl⟩, fun hlo => absurd hb ?_⟩⟩
        simp only [low, high, MEANADU, DEVADU] at *
        intro hc
        linarith
  · rw [if_neg hb] at hstep
    by_cases hd : m ≤ low
    · rw [if_pos hd] at hstep
      by_cases hg : s.current_exposure ≥ EXPOSURE_THRESHOLD ∧
          s.current_gain < MAXGAIN ∧ ¬ s.last_gain_dec
      · -- gain-increase branch
        rw [if_pos hg] at hstep
        dsimp only at hstep
        cases hstep
        exact ⟨fun _ => ⟨rfl, rfl, fun hhi => absurd hhi hb, fun _ => ⟨rfl, rfl⟩⟩,
               fun hne => absurd rfl hne⟩
      · rw [if_neg hg] at hstep
        by_cases hmax : s.current_exposure ≥ MAXEXP
        · rw [if_pos hmax] at hstep
          cases hstep
        · -- exposure-increase branch
          rw [if_neg hmax] at hstep
          dsimp only at hstep
          cases hstep
          exact ⟨fun hne => absurd rfl hne,
                 fun _ => ⟨fun hhi => absurd hhi hb, fun _ => ⟨rfl, rfl, rfl, rfl⟩⟩⟩
    · rw [if_neg hd] at hstep
      cases hstep

/-- Witness for C6 (amended): the gain-increasing step of the
counterexample run, instantiated concretely: gain changes, and the stale
`last_exp_dec` flag is carried over unchanged. -/
theorem C6_flag_updates_witness :
    step (⟨1, 1, 2, 1, false, true, false, false⟩ : AutoState) 0
      = .cont (⟨5, 1, 2, 1, false, true, true, false⟩ : AutoState) ∧
    (5 : ℤ) ≠ 1 ∧
    ((⟨5, 1, 2, 1, false, true, true, false⟩ : AutoState).last_exp_inc
        = (⟨1, 1, 2, 1, false, true, false, false⟩ : AutoState).last_exp_inc ∧
     (⟨5, 1, 2, 1, false, true, true, false⟩ : AutoState).last_exp_dec
        = (⟨1, 1, 2, 1, false, true, false, false⟩ : AutoState).last_exp_dec) :=
  have hs : step (⟨1, 1, 2, 1, false, true, false, false⟩ : AutoState) 0
      = .cont (⟨5, 1, 2, 1, false, true, true, false⟩ : AutoState) := by
    norm_num [step, high, low, MEANADU, DEVADU, EXPOSURE_THRESHOLD,
      MINGAIN, MAXGAIN, STEPGAIN, MINEXP, MAXEXP]
  ⟨hs, by norm_num,
   by
    have h := (C6_flag_updates
      (⟨1, 1, 2, 1, false, true, false, false⟩ : AutoState) 0
      (⟨5, 1, 2, 1, false, true, true, false⟩ : AutoState) hs).1 (by norm_num)
    exact ⟨h.1, h.2.1⟩⟩

/-- C7: `CCDcapture` performs its property writes in the order gain,
offset, binning, exposure, and clears the image-ready signal strictly
before the exposure write that triggers the capture — so whatever the
signal's value when the capture is armed (a stale notification included),
it is `false` at the moment the exposure write happens. -/
theorem C7_clear_before_arm :
    CCDcapture_events.filter (fun e => !(e == CaptureEvent.clearSignal))
      = [CaptureEvent.writeGain, CaptureEvent.writeOffset,
         CaptureEvent.writeBinning, CaptureEvent.writeExposure] ∧
    List.indexOf CaptureEvent.clearSignal CCDcapture_events
      < List.indexOf CaptureEvent.writeExposure CCDcapture_events ∧
    ∀ init : Bool,
      signalAfter init (CCDcapture_events.takeWhile
        (fun e => !(e == CaptureEvent.writeExposure))) = false := by
  decide

/-- C8 (counterexample): with every frame saturated and the camera started
at gain 29, exposure 8 s, the loop exhausts all 15 attempts; the final
iteration halves the exposure *after* its capture, so the settings at exit
(exposure 1/32 s) are not the settings that produced the last frame
(exposure 1/16 s) — refuting "returns the last captured frame together
with the settings that produced it" in the budget-exhausted case. -/
theorem C8_counterexample :
    (CCDauto alwaysBright stateD).captures = MAXTRY ∧
    (CCDauto alwaysBright stateD).final.current_exposure
      ≠ (CCDauto alwaysBright stateD).lastSettings.current_exposure := by
  norm_num [CCDauto, loopAux, step, alwaysBright, stateD, MAXTRY,
    StepResult.state, high, low, MEANADU, DEVADU, EXPOSURE_THRESHOLD,
    MINGAIN, MAXGAIN, STEPGAIN, MINEXP, MAXEXP]

/-- C8 (amended): for every run and every sequence of measured means the
loop performs between 1 and `MAXTRY` = 15 capture iterations and
terminates (the run function is total, so no exception is raised by budget
exhaustion or clamping); it returns the frame of the last capture
(`lastFrame` is the final capture's index), and when the loop stopped
because that frame's mean lay strictly inside the band the returned
settings are exactly those that produced it — but after budget exhaustion
the returned settings may reflect one further adjustment made after the
last capture. -/
theorem C8_run_structure :
    ∀ (means : ℕ → AutoState → ℚ) (s : AutoState),
      0 < (CCDauto means s).captures ∧
      (CCDauto means s).captures ≤ MAXTRY ∧
      (CCDauto means s).lastFrame + 1 = (CCDauto means s).captures ∧
      (low < means (CCDauto means s).lastFrame (CCDauto means s).lastSettings →
       means (CCDauto means s).lastFrame (CCDauto means s).lastSettings < high →
       (CCDauto means s).final = (CCDauto means s).lastSettings) := by
  intro means s
  unfold CCDauto
  have h := loopAux_spec means MAXTRY 0
    { s with last_exp_inc := false, last_exp_dec := false,
             last_gain_inc := false, last_gain_dec := false }
    s (by norm_num [MAXTRY])
  exact ⟨h.1, by omega, h.2.2.1, h.2.2.2⟩

/-- Witness for C8 (amended): an immediately-convergent run (mean 128)
performs one capture within budget and returns the settings that produced
its frame. -/
theorem C8_run_structure_witness :
    (CCDauto alwaysBand stateB).captures ≤ MAXTRY ∧
    low < alwaysBand (CCDauto alwaysBand stateB).lastFrame
      (CCDauto alwaysBand stateB).lastSettings ∧
    alwaysBand (CCDauto alwaysBand stateB).lastFrame
      (CCDauto alwaysBand stateB).lastSettings < high ∧
    (CCDauto alwaysBand stateB).final = (CCDauto alwaysBand stateB).lastSettings :=
  ⟨(C8_run_structure alwaysBand stateB).2.1,
   by norm_num [alwaysBand, low, MEANADU, DEVADU],
   by norm_num [alwaysBand, high, MEANADU, DEVADU],
   (C8_run_structure alwaysBand stateB).2.2.2
     (by norm_num [alwaysBand, low, MEANADU, DEVADU])
     (by norm_num [alwaysBand, high, MEANADU, DEVADU])⟩

/-- C9: the auto-exposure operation against a deterministic simulated
device (a pure function from the current settings to the measured mean) is
a pure function of its initial settings: two calls with the same device
and the same initial settings yield identical final settings, identical
capture counts, and in fact identical run results. -/
theorem C9_deterministic :
    ∀ (dev : AutoState → ℚ) (s₁ s₂ : AutoState), s₁ = s₂ →
      (CCDauto (fun _ st => dev st) s₁).final
        = (CCDauto (fun _ st => dev st) s₂).final ∧
      (CCDauto (fun _ st => dev st) s₁).captures
        = (CCDauto (fun _ st => dev st) s₂).captures := by
  intro dev s₁ s₂ h
  rw [h]
  exact ⟨rfl, rfl⟩

/-- Witness for C9: the simulated device of the spec's scenario, run twice
from the source's default initial settings. -/
theorem C9_deterministic_witness :
    stateB = stateB ∧
    (CCDauto (fun _ st => simDevice st) stateB).final
      = (CCDauto (fun _ st => simDevice st) stateB).final ∧
    (CCDauto (fun _ st => simDevice st) stateB).captures
      = (CCDauto (fun _ st => simDevice st) stateB).captures :=
  ⟨rfl, C9_deterministic simDevice stateB stateB rfl⟩

/-- C10: the loop never modifies the stored offset or binning: after every
iteration and on return they equal their values at the start of the run;
only gain and exposure are ever adjusted. -/
theorem C10_offset_binning_preserved :
    ∀ (means : ℕ → AutoState → ℚ) (s : AutoState),
      (CCDauto means s).final.current_offset = s.current_offset ∧
      (CCDauto means s).final.current_binning = s.current_binning ∧
      ∀ t ∈ (CCDauto means s).trace,
        t.current_offset = s.current_offset ∧
        t.current_binning = s.current_binning := by
  intro means s
  unfold CCDauto
  have h := loopAux_preserves
    (fun t => t.current_offset = s.current_offset ∧
              t.current_binning = s.current_binning)
    (fun s0 m hp => by
      obtain ⟨ho, hb⟩ := step_offset_binning s0 m
      exact ⟨ho.trans hp.1, hb.trans hp.2⟩)
    means MAXTRY 0
    { s with last_exp_inc := false, last_exp_dec := false,
             last_gain_inc := false, last_gain_dec := false }
    s ⟨rfl, rfl⟩
  exact ⟨h.1.1, h.1.2, h.2⟩

/-- Witness for C10: on a concrete convergent run the final state is in the
trace and keeps offset 1 and binning 2. -/
theorem C10_offset_binning_preserved_witness :
    (CCDauto alwaysBand stateB).final ∈ (CCDauto alwaysBand stateB).trace ∧
    (CCDauto alwaysBand stateB).final.current_offset = stateB.current_offset ∧
    (CCDauto alwaysBand stateB).final.current_binning = stateB.current_binning :=
  have hmem : (CCDauto alwaysBand stateB).final ∈ (CCDauto alwaysBand stateB).trace := by
    norm_num [CCDauto, loopAux, step, alwaysBand, stateB, MAXTRY,
      StepResult.state, high, low, MEANADU, DEVADU, EXPOSURE_THRESHOLD,
      MINGAIN, MAXGAIN, STEPGAIN, MINEXP, MAXEXP]
  ⟨hmem,
   (C10_offset_binning_preserved alwaysBand stateB).2.2 _ hmem⟩

end QhyAuto
